import Mathlib

/-!
Verification of the realtime ride-chat synchronization subsystem of the
oneridetho-driver repository (`src/components/ChatPanel.tsx` and the
`ChatBox` message component it renders).

The shallow embedding follows the source line by line:

* `PanelState` is the React state of `ChatPanel` (`isOpen`, `rides`,
  `selectedRideId`).
* `fetchRides` is the body of the polling callback: it receives the
  observable outcome of the HTTP response (`ok` status and the result of
  `JSON.parse` on the body text) and returns the updated state together
  with a flag recording whether an error was caught and logged.
* `toggleChat` and `selectRide` are the click handlers.
* `chatButtonRendered`, `widgetRendered`, `chatBoxRendered`,
  `sendMessageRendered` are the render conditions of the JSX, with JS
  truthiness of `number | null` made explicit by `truthyId`.
* `chatBoxMessages` is the Firestore query issued by `ChatBox`:
  `query(collection(db, "messages"), orderBy("createdAt"), limit(10))`,
  i.e. the whole `messages` collection sorted ascending by `createdAt`
  and truncated to the first 10.  `ChatBox` declares no props, so the
  `rideId` attribute passed at the call site is ignored; the parameter is
  kept to mirror the call site `<ChatBox rideId={selectedRideId} />`.
-/

namespace OneRideTho

/-- A ride as declared in `ChatPanel.tsx` (`interface Ride`). -/
structure Ride where
  id : Int
  pickupLocation : String
  dropoffLocation : String
deriving DecidableEq, Repr

/-- The React state of `ChatPanel`: `isOpen`, `rides`, `selectedRideId`
(`number | null` becomes `Option Int`). -/
structure PanelState where
  isOpen : Bool
  rides : List Ride
  selectedRideId : Option Int
deriving DecidableEq, Repr

/-- The observable outcome of the `fetch("/api/rides/inprogress")` call:
`ok` is `response.ok`, `status` is `response.status`, and `parsedBody` is
the outcome of `JSON.parse(text)` on the body text (`none` means the parse
throws, i.e. the body is malformed). -/
structure RidesResponse where
  ok : Bool
  status : Nat
  parsedBody : Option (List Ride)
deriving DecidableEq, Repr

/-- The body of the polling callback `fetchRides` in `ChatPanel.tsx`.

Source order: nothing happens without a session; a non-ok response throws
before any state update; `JSON.parse` throws on a malformed body before
any state update; on success `setRides(data)` always runs and
`setSelectedRideId(data[0].id)` runs only when `data.length > 0`.  All
throws are caught by the surrounding `try`/`catch`, which only calls
`console.error`; the second component of the result records that an error
was logged.  Totality of this function is the embedding of "the subsystem
does not crash". -/
def fetchRides (session : Bool) (s : PanelState) (resp : RidesResponse) :
    PanelState × Bool :=
  if session then
    if resp.ok then
      match resp.parsedBody with
      | none => (s, true)
      | some data =>
        match data with
        | [] => ({ s with rides := data }, false)
        | r :: _ => ({ s with rides := data, selectedRideId := some r.id }, false)
    else (s, true)
  else (s, false)

/-- `toggleChat`: `setIsOpen(!isOpen)`. -/
def toggleChat (s : PanelState) : PanelState :=
  { s with isOpen := !s.isOpen }

/-- The ride-tab click handler `onClick={() => setSelectedRideId(ride.id)}`:
the raw state setter, no validation of any kind. -/
def selectRide (s : PanelState) (id : Int) : PanelState :=
  { s with selectedRideId := some id }

/-- JS truthiness of a `number | null` value: `null`, `0` (and `NaN`) are
falsy; every other number is truthy. -/
def truthyId : Option Int → Bool
  | none => false
  | some n => n != 0

/-- Render condition of the toggle button:
`isLoggedIn && rides.length > 0`. -/
def chatButtonRendered (isLoggedIn : Bool) (s : PanelState) : Bool :=
  isLoggedIn && decide (0 < s.rides.length)

/-- Render condition of the chat widget `div`: `isOpen`. -/
def widgetRendered (s : PanelState) : Bool :=
  s.isOpen

/-- Render condition of `<ChatBox rideId={selectedRideId} />`:
`isOpen && selectedRideId` (JS truthiness). -/
def chatBoxRendered (s : PanelState) : Bool :=
  s.isOpen && truthyId s.selectedRideId

/-- Render condition of `<SendMessage rideId={selectedRideId} />`:
`isOpen && selectedRideId` (JS truthiness). -/
def sendMessageRendered (s : PanelState) : Bool :=
  s.isOpen && truthyId s.selectedRideId

/-- Ids for which a ride-tab select button is rendered: one button per
element of `rides`. -/
def rideButtonIds (s : PanelState) : List Int :=
  s.rides.map Ride.id

/-- The poll schedule set up by `setInterval(fetchRides, 3000)`: the
`n`-th interval tick fires `3000 * (n + 1)` ms after mount (an initial
fetch also runs at mount).  The schedule is a fixed function of the tick
index: it does not depend on fetch outcomes, and the interval is cleared
only by the unmount cleanup. -/
def pollTime (n : Nat) : Nat :=
  3000 * (n + 1)

/-- A Firestore document of the `messages` collection as declared in
`ChatBox` (`interface MessageData`); `createdAt : Timestamp` becomes
`Int`.  Note the document carries no ride identifier. -/
structure MessageData where
  id : String
  text : String
  name : String
  avatar : String
  createdAt : Int
  uid : String
deriving DecidableEq, Repr

/-- The ordering used by `orderBy("createdAt")`. -/
def byCreatedAt (a b : MessageData) : Prop :=
  a.createdAt ≤ b.createdAt

instance : DecidableRel byCreatedAt :=
  fun a b => inferInstanceAs (Decidable (a.createdAt ≤ b.createdAt))

instance : IsTotal MessageData byCreatedAt :=
  ⟨fun a b => le_total a.createdAt b.createdAt⟩

instance : IsTrans MessageData byCreatedAt :=
  ⟨fun _ _ _ hab hbc => le_trans hab hbc⟩

/-- The message window delivered by the `onSnapshot` subscription of
`ChatBox`: the query is
`query(collection(db, "messages"), orderBy("createdAt"), limit(10))`,
i.e. the whole `messages` collection ordered ascending by `createdAt`
and limited to the FIRST 10 documents in that order.  `ChatBox` declares
no props, so the `rideId` passed by `ChatPanel` is ignored — it appears
here only to mirror the call site. -/
def chatBoxMessages (rideId : Int) (coll : List MessageData) : List MessageData :=
  (coll.insertionSort byCreatedAt).take 10

/-- `ChatBox` is mounted exactly when the widget is open and the selected
ride id is truthy; its subscription effect has an empty dependency list,
so exactly one `onSnapshot` subscription is live while it is mounted. -/
def chatBoxMounted (s : PanelState) : Bool :=
  s.isOpen && truthyId s.selectedRideId

/-- Number of live Firestore subscriptions held by the panel. -/
def activeSubscriptions (s : PanelState) : Nat :=
  if chatBoxMounted s then 1 else 0

/-! Concrete values used by counterexamples and witnesses. -/

/-- Concrete ride with id 1. -/
def ride1 : Ride := { id := 1, pickupLocation := "a", dropoffLocation := "b" }

/-- Concrete ride with id 2. -/
def ride2 : Ride := { id := 2, pickupLocation := "c", dropoffLocation := "d" }

/-- Concrete ride with id 3. -/
def ride3 : Ride := { id := 3, pickupLocation := "e", dropoffLocation := "f" }

/-- Concrete message with a given timestamp. -/
def mkMsg (t : Int) : MessageData :=
  { id := "", text := "", name := "", avatar := "", createdAt := t, uid := "" }

/-- A history of 11 messages with strictly increasing timestamps 0..10. -/
def coll11 : List MessageData :=
  [mkMsg 0, mkMsg 1, mkMsg 2, mkMsg 3, mkMsg 4, mkMsg 5,
   mkMsg 6, mkMsg 7, mkMsg 8, mkMsg 9, mkMsg 10]

/-! ## Claim C1: selection stability -/

/-- Claim C1 counterexample: with `SelectedRideId = 2` and a poll whose
response `[ride1, ride2, ride3]` still contains id 2, the selection does
NOT survive — it is overwritten with the first ride's id 1. -/
theorem C1_counterexample :
    (2 : Int) ∈ ([ride1, ride2, ride3].map Ride.id) ∧
    (fetchRides true
        { isOpen := true, rides := [ride1, ride2], selectedRideId := some 2 }
        { ok := true, status := 200, parsedBody := some [ride1, ride2, ride3] }).1.selectedRideId
      = some 1 := by
  decide

/-- Claim C1 as amended: a successful non-empty poll always sets
`SelectedRideId` to the first ride's id, so the selection is unchanged by
the poll exactly when it already equals the first ride's id. -/
theorem C1_amended_stability (s : PanelState) (status : Nat) (r : Ride) (rs : List Ride) :
    ((fetchRides true s
        { ok := true, status := status, parsedBody := some (r :: rs) }).1.selectedRideId
      = s.selectedRideId) ↔ s.selectedRideId = some r.id := by
  simp [fetchRides, eq_comm]

/-! ## Claim C4: selection reset rule -/

/-- Claim C4 counterexample: when a successful poll returns the empty
array, `RideSet` is cleared but `SelectedRideId` keeps its previous, now
stale, value `some 2` instead of becoming absent. -/
theorem C4_counterexample :
    (fetchRides true
        { isOpen := true, rides := [ride1, ride2], selectedRideId := some 2 }
        { ok := true, status := 200, parsedBody := some [] }).1
      = { isOpen := true, rides := [], selectedRideId := some 2 } := by
  decide

/-- Claim C4 as amended: when the prior selected id is absent from a new
non-empty `RideSet` the new selection is the first id of the new set; but
when the new `RideSet` is empty, the rides are cleared while
`SelectedRideId` retains its previous (possibly stale) value. -/
theorem C4_amended_reset (s : PanelState) (status : Nat) (r : Ride) (rs : List Ride) :
    (fetchRides true s
        { ok := true, status := status, parsedBody := some (r :: rs) }).1.selectedRideId
      = some r.id ∧
    (fetchRides true s
        { ok := true, status := status, parsedBody := some [] }).1.rides = [] ∧
    (fetchRides true s
        { ok := true, status := status, parsedBody := some [] }).1.selectedRideId
      = s.selectedRideId := by
  refine ⟨?_, ?_, ?_⟩ <;> simp [fetchRides]

/-! ## Claim C7: invalid selection -/

/-- Claim C7 counterexample: id 5 is not among the rendered ride ids, yet
`selectRide` sets `SelectedRideId` to `some 5` — the setter performs no
membership validation, so the operation is not a no-op. -/
theorem C7_counterexample :
    (5 : Int) ∉ rideButtonIds { isOpen := true, rides := [ride1], selectedRideId := some 1 } ∧
    (selectRide { isOpen := true, rides := [ride1], selectedRideId := some 1 } 5).selectedRideId
      = some 5 := by
  decide

/-- Claim C7 as amended: `select(id)` sets `SelectedRideId` to `id`
unconditionally (no membership check, and no error — the rest of the
state is untouched); only the UI restricts which ids are offered, since a
select button is rendered exactly for the ids in `RideSet`. -/
theorem C7_amended_select (s : PanelState) (id : Int) :
    (selectRide s id).selectedRideId = some id ∧
    (selectRide s id).rides = s.rides ∧
    (selectRide s id).isOpen = s.isOpen ∧
    rideButtonIds s = s.rides.map Ride.id := by
  exact ⟨rfl, rfl, rfl, rfl⟩

/-! ## Claim C8: poll overrides selection -/

/-- Claim C8: after every successful non-empty poll the selection equals
the first returned ride's id (regardless of its previous value) and the
rides are replaced wholesale; after a successful empty poll the rides
become empty while the selection retains its previous value. -/
theorem C8_poll_overrides (s : PanelState) (status : Nat) (r : Ride) (rs : List Ride) :
    (fetchRides true s
        { ok := true, status := status, parsedBody := some (r :: rs) }).1.selectedRideId
      = some r.id ∧
    (fetchRides true s
        { ok := true, status := status, parsedBody := some (r :: rs) }).1.rides = r :: rs ∧
    (fetchRides true s
        { ok := true, status := status, parsedBody := some ([] : List Ride) }).1.rides = [] ∧
    (fetchRides true s
        { ok := true, status := status, parsedBody := some ([] : List Ride) }).1.selectedRideId
      = s.selectedRideId := by
  refine ⟨?_, ?_, ?_, ?_⟩ <;> simp [fetchRides]

/-! ## Claim C9: toggle is an involution -/

/-- Claim C9: `toggleChat` strictly negates the open flag and leaves the
rest of the state intact, so applying it twice restores the original
state — independently of `RideSet` contents or authentication. -/
theorem C9_toggle_involution (s : PanelState) :
    toggleChat (toggleChat s) = s ∧ (toggleChat s).isOpen = !s.isOpen := by
  constructor
  · simp [toggleChat]
  · rfl

/-! ## Claim C10: ride id 0 behaves as no selection -/

/-- Claim C10: when the widget is open and `SelectedRideId` is the falsy
number 0, neither `ChatBox` nor `SendMessage` is rendered, because the
JSX guard is JS truthiness of the numeric id. -/
theorem C10_zero_id_hidden (s : PanelState) (hopen : s.isOpen = true)
    (hsel : s.selectedRideId = some 0) :
    chatBoxRendered s = false ∧ sendMessageRendered s = false := by
  simp [chatBoxRendered, sendMessageRendered, truthyId, hsel]

/-- Witness for C10 at the concrete open state selecting ride id 0. -/
theorem C10_zero_id_hidden_witness :
    chatBoxRendered { isOpen := true, rides := [ride1], selectedRideId := some 0 } = false ∧
    sendMessageRendered { isOpen := true, rides := [ride1], selectedRideId := some 0 } = false :=
  C10_zero_id_hidden { isOpen := true, rides := [ride1], selectedRideId := some 0 } rfl rfl

/-! ## Claim C5: toggle gating -/

/-- Claim C5 counterexample: invoking `toggleChat` on the closed state
with an empty `RideSet` DOES open the widget — the handler flips
`isOpen` unconditionally, so the widget is rendered while `rides = []`. -/
theorem C5_counterexample :
    (toggleChat { isOpen := false, rides := [], selectedRideId := none }).isOpen = true ∧
    widgetRendered (toggleChat { isOpen := false, rides := [], selectedRideId := none }) = true ∧
    (toggleChat { isOpen := false, rides := [], selectedRideId := none }).rides = [] := by
  decide

/-- Claim C5 as amended: the toggle operation itself always flips the
open flag, regardless of `RideSet`; the gating is purely presentational —
when `RideSet` is empty the toggle button is not rendered at all. -/
theorem C5_amended_toggle (isLoggedIn : Bool) (s : PanelState) :
    (toggleChat s).isOpen = !s.isOpen ∧
    (s.rides = [] → chatButtonRendered isLoggedIn s = false) := by
  refine ⟨rfl, fun h => ?_⟩
  simp [chatButtonRendered, h]

/-- Witness for the amended C5 at the concrete empty-rides state. -/
theorem C5_amended_toggle_witness :
    chatButtonRendered true { isOpen := false, rides := [], selectedRideId := none } = false :=
  (C5_amended_toggle true { isOpen := false, rides := [], selectedRideId := none }).2 rfl

/-! ## Claim C6: failed-fetch atomicity and continuity -/

/-- Claim C6: a poll whose response is non-ok or whose body fails to
parse leaves the whole panel state exactly unchanged; the error is only
logged (second component `true`, the `catch` branch — the function is
total, so no crash); and the interval schedule is unaffected: each next
tick is 3000 ms after the previous one. -/
theorem C6_failed_fetch (s : PanelState) (resp : RidesResponse)
    (h : resp.ok = false ∨ resp.parsedBody = none) :
    (fetchRides true s resp).1 = s ∧
    (fetchRides true s resp).2 = true ∧
    ∀ n, pollTime (n + 1) = pollTime n + 3000 := by
  have hmain : fetchRides true s resp = (s, true) := by
    rcases h with h | h
    · simp [fetchRides, h]
    · cases hok : resp.ok with
      | false => simp [fetchRides, hok]
      | true => simp [fetchRides, hok, h]
  refine ⟨by rw [hmain], by rw [hmain], fun n => ?_⟩
  simp [pollTime]
  ring

/-- Witness for C6 at the concrete HTTP 500 response. -/
theorem C6_failed_fetch_witness :
    (fetchRides true { isOpen := false, rides := [ride1], selectedRideId := some 1 }
        { ok := false, status := 500, parsedBody := none }).1
      = { isOpen := false, rides := [ride1], selectedRideId := some 1 } ∧
    (fetchRides true { isOpen := false, rides := [ride1], selectedRideId := some 1 }
        { ok := false, status := 500, parsedBody := none }).2 = true :=
  ⟨(C6_failed_fetch { isOpen := false, rides := [ride1], selectedRideId := some 1 }
      { ok := false, status := 500, parsedBody := none } (Or.inl rfl)).1,
   (C6_failed_fetch { isOpen := false, rides := [ride1], selectedRideId := some 1 }
      { ok := false, status := 500, parsedBody := none } (Or.inl rfl)).2.1⟩

/-! ## Claim C2: per-ride subscription -/

/-- Claim C2: the message window delivered by the subscription is the
same list whether the selected ride is 1 or 2 — at the concrete
collection holding one message, that message appears in the window under
both selections, and in general the query is independent of the ride id
(`ChatBox` declares no props, so the `rideId` passed by `ChatPanel` is
never used and the query carries no per-ride filter). -/
theorem C2_subscription_ignores_ride :
    chatBoxMessages 1 [mkMsg 5] = [mkMsg 5] ∧
    chatBoxMessages 2 [mkMsg 5] = [mkMsg 5] ∧
    ∀ (rid rid2 : Int) (coll : List MessageData),
      chatBoxMessages rid coll = chatBoxMessages rid2 coll := by
  refine ⟨by decide, by decide, fun _ _ _ => rfl⟩

/-! ## Claim C3: message window bound and ordering -/

/-- Claim C3 counterexample: with a history of 11 messages at times
0..10, the window (`orderBy createdAt` ascending, `limit(10)`) drops the
NEWEST message (time 10) and keeps the oldest (time 0) — it is not the
most recent 10. -/
theorem C3_counterexample :
    coll11.length = 11 ∧
    mkMsg 10 ∈ coll11 ∧
    mkMsg 10 ∉ chatBoxMessages 1 coll11 ∧
    mkMsg 0 ∈ chatBoxMessages 1 coll11 ∧
    (mkMsg 0).createdAt < (mkMsg 10).createdAt := by
  decide

/-- Claim C3 as amended: the window never exceeds 10 messages and its
timestamps are non-decreasing, but when the history exceeds 10 the
window holds the OLDEST messages: every message of the history left out
of the window is at least as new as every message kept. -/
theorem C3_amended_window (rid : Int) (coll : List MessageData) :
    (chatBoxMessages rid coll).length ≤ 10 ∧
    (chatBoxMessages rid coll).Pairwise byCreatedAt ∧
    (∀ m ∈ coll, m ∉ chatBoxMessages rid coll →
      ∀ m2 ∈ chatBoxMessages rid coll, m2.createdAt ≤ m.createdAt) := by
  refine ⟨?_, ?_, ?_⟩
  · simp [chatBoxMessages]
  · exact List.Pairwise.sublist (List.take_sublist 10 _)
      (List.sorted_insertionSort byCreatedAt coll)
  · intro m hm hnot m2 hm2
    simp only [chatBoxMessages] at hnot hm2
    have hsorted : (coll.insertionSort byCreatedAt).Pairwise byCreatedAt :=
      List.sorted_insertionSort byCreatedAt coll
    have hmem : m ∈ coll.insertionSort byCreatedAt :=
      (List.perm_insertionSort byCreatedAt coll).mem_iff.mpr hm
    have hsplit := List.take_append_drop 10 (coll.insertionSort byCreatedAt)
    have hdrop : m ∈ (coll.insertionSort byCreatedAt).drop 10 := by
      rw [← hsplit] at hmem
      rcases List.mem_append.mp hmem with h | h
      · exact absurd h hnot
      · exact h
    have hpw : ((coll.insertionSort byCreatedAt).take 10 ++
        (coll.insertionSort byCreatedAt).drop 10).Pairwise byCreatedAt := by
      rw [hsplit]
      exact hsorted
    exact (List.pairwise_append.mp hpw).2.2 m2 hm2 m hdrop

/-- Witness for the amended C3: at the 11-message history, the kept
oldest message is no newer than the dropped newest one. -/
theorem C3_amended_window_witness :
    (mkMsg 0).createdAt ≤ (mkMsg 10).createdAt :=
  (C3_amended_window 1 coll11).2.2 (mkMsg 10) (by decide) (by decide) (mkMsg 0) (by decide)

end OneRideTho
